import Mathlib

/-!
Verification of the zann envelope-encryption scripts.

This file is a shallow embedding of `src/scripts/crypto_encrypt.py` (Seal)
and `src/scripts/crypto_decrypt.py` (Open).  Bytes are `Fin 256`; the
base64 codec used by both scripts (`base64.b64encode` / `base64.b64decode`
on ASCII text) is implemented concretely below.  The AEAD ciphers and the
scrypt KDF are the trusted external primitives of the design and are
modelled as function parameters; the properties assumed of them appear as
explicit hypotheses of the theorems, instantiated by a concrete toy
instance in the witnesses.
-/

abbrev Byte := Fin 256

abbrev Bytes := List Byte

/-- Character of the standard base64 alphabet at index `i`
(A-Z, a-z, 0-9, `+`, `/`), as used by Python's `base64.b64encode`. -/
def b64char (i : Fin 64) : Char :=
  if i.val < 26 then Char.ofNat (65 + i.val)
  else if i.val < 52 then Char.ofNat (97 + (i.val - 26))
  else if i.val < 62 then Char.ofNat (48 + (i.val - 52))
  else if i.val = 62 then '+' else '/'

/-- Index of a character in the standard base64 alphabet, `none` for
characters outside the alphabet. -/
def b64index (c : Char) : Option (Fin 64) :=
  if h : 65 ≤ c.toNat ∧ c.toNat ≤ 90 then some ⟨c.toNat - 65, by omega⟩
  else if h : 97 ≤ c.toNat ∧ c.toNat ≤ 122 then some ⟨c.toNat - 97 + 26, by omega⟩
  else if h : 48 ≤ c.toNat ∧ c.toNat ≤ 57 then some ⟨c.toNat - 48 + 52, by omega⟩
  else if c = '+' then some ⟨62, by omega⟩
  else if c = '/' then some ⟨63, by omega⟩
  else none

/-- The four alphabet characters encoding one group of three bytes. -/
def encChunk3 (a b c : Byte) : List Char :=
  [b64char ⟨a.val / 4, by have := a.isLt; omega⟩,
   b64char ⟨a.val % 4 * 16 + b.val / 16, by have := a.isLt; have := b.isLt; omega⟩,
   b64char ⟨b.val % 16 * 4 + c.val / 64, by have := b.isLt; have := c.isLt; omega⟩,
   b64char ⟨c.val % 64, by omega⟩]

/-- Base64 data characters of a byte string (padding appended separately). -/
def encDataChars : Bytes → List Char
  | [] => []
  | [a] =>
    [b64char ⟨a.val / 4, by have := a.isLt; omega⟩,
     b64char ⟨a.val % 4 * 16, by have := a.isLt; omega⟩]
  | [a, b] =>
    [b64char ⟨a.val / 4, by have := a.isLt; omega⟩,
     b64char ⟨a.val % 4 * 16 + b.val / 16, by have := a.isLt; have := b.isLt; omega⟩,
     b64char ⟨b.val % 16 * 4, by have := b.isLt; omega⟩]
  | a :: b :: c :: rest => encChunk3 a b c ++ encDataChars rest

/-- Number of `=` padding characters `base64.b64encode` appends. -/
def padLen : Bytes → Nat
  | [] => 0
  | [_] => 2
  | [_, _] => 1
  | _ :: _ :: _ :: rest => padLen rest

/-- Model of the script's `b64` helper: `base64.b64encode(data).decode("ascii")`. -/
def b64 (data : Bytes) : String :=
  ⟨encDataChars data ++ List.replicate (padLen data) '='⟩

/-- First byte reconstructed from a base64 quad. -/
def decByte1 (i1 i2 : Fin 64) : Byte :=
  ⟨i1.val * 4 + i2.val / 16, by have := i1.isLt; have := i2.isLt; omega⟩

/-- Second byte reconstructed from a base64 quad. -/
def decByte2 (i2 i3 : Fin 64) : Byte :=
  ⟨i2.val % 16 * 16 + i3.val / 4, by have := i3.isLt; omega⟩

/-- Third byte reconstructed from a base64 quad. -/
def decByte3 (i3 i4 : Fin 64) : Byte :=
  ⟨i3.val % 4 * 64 + i4.val, by have := i4.isLt; omega⟩

/-- Decode the data characters of a base64 string (padding already
stripped): full quads give three bytes, a trailing pair or triple gives
one or two bytes, and a lone trailing character is invalid. -/
def b64decodeData : List Char → Option Bytes
  | [] => some []
  | [_] => none
  | [c1, c2] => do
    let i1 ← b64index c1
    let i2 ← b64index c2
    some [decByte1 i1 i2]
  | [c1, c2, c3] => do
    let i1 ← b64index c1
    let i2 ← b64index c2
    let i3 ← b64index c3
    some [decByte1 i1 i2, decByte2 i2 i3]
  | c1 :: c2 :: c3 :: c4 :: rest => do
    let i1 ← b64index c1
    let i2 ← b64index c2
    let i3 ← b64index c3
    let i4 ← b64index c4
    let tail ← b64decodeData rest
    some (decByte1 i1 i2 :: decByte2 i2 i3 :: decByte3 i3 i4 :: tail)

/-- Characters `base64.b64decode` keeps before the padding check
(alphabet characters and `=`; other characters are discarded). -/
def keepChar (c : Char) : Bool :=
  (b64index c).isSome || c == '='

/-- Model of the script's `b64d` helper:
`base64.b64decode(value.encode("ascii"))`.  `none` models the uncaught
exceptions of the source: `UnicodeEncodeError` for non-ASCII input and
`binascii.Error` for bad padding or a truncated final group. -/
def b64d (value : String) : Option Bytes :=
  if value.data.all (fun c => c.toNat < 128) then
    let cs := value.data.filter keepChar
    let data := cs.takeWhile (fun c => c ≠ '=')
    let pads := ((cs.drop data.length).takeWhile (fun c => c = '=')).length
    if data.length % 4 = 1 then none
    else if pads < (4 - data.length % 4) % 4 then none
    else b64decodeData data
  else none

theorem b64index_b64char : ∀ i : Fin 64,
    b64index (b64char i) = some i ∧ (b64char i).toNat < 128 ∧ b64char i ≠ '=' := by
  decide

theorem encDataChars_good : ∀ (l : Bytes), ∀ c ∈ encDataChars l, (b64index c).isSome
  | [] => by intro c hc; simp [encDataChars] at hc
  | [a] => by
    intro c hc
    simp [encDataChars] at hc
    rcases hc with rfl | rfl <;> simp [(b64index_b64char _).1]
  | [a, b] => by
    intro c hc
    simp [encDataChars] at hc
    rcases hc with rfl | rfl | rfl <;> simp [(b64index_b64char _).1]
  | a :: b :: c' :: rest => by
    intro c hc
    simp only [encDataChars, encChunk3, List.mem_append, List.mem_cons,
      List.not_mem_nil, or_false] at hc
    rcases hc with (rfl | rfl | rfl | rfl) | hc
    · simp [(b64index_b64char _).1]
    · simp [(b64index_b64char _).1]
    · simp [(b64index_b64char _).1]
    · simp [(b64index_b64char _).1]
    · exact encDataChars_good rest c hc

theorem takeWhile_append_of_all {p : Char → Bool} {l1 : List Char}
    (h : ∀ c ∈ l1, p c) (l2 : List Char) :
    (l1 ++ l2).takeWhile p = l1 ++ l2.takeWhile p := by
  induction l1 with
  | nil => simp
  | cons a l ih =>
    have ha : p a := h a (by simp)
    simp [List.takeWhile_cons, ha, ih (fun c hc => h c (by simp [hc]))]

theorem encDataChars_len : ∀ l : Bytes,
    (encDataChars l).length % 4 ≠ 1 ∧
      padLen l = (4 - (encDataChars l).length % 4) % 4
  | [] => by simp [encDataChars, padLen]
  | [a] => by simp [encDataChars, padLen]
  | [a, b] => by simp [encDataChars, padLen]
  | a :: b :: c :: rest => by
    have ih := encDataChars_len rest
    simp only [encDataChars, padLen, List.length_append, encChunk3,
      List.length_cons, List.length_nil]
    omega

theorem b64decodeData_enc : ∀ l : Bytes, b64decodeData (encDataChars l) = some l
  | [] => rfl
  | [a] => by
    have ha := a.isLt
    simp only [encDataChars, b64decodeData, (b64index_b64char _).1,
      Option.bind_eq_bind, Option.some_bind]
    simp [decByte1, Fin.ext_iff]
    omega
  | [a, b] => by
    have ha := a.isLt
    have hb := b.isLt
    simp only [encDataChars, b64decodeData, (b64index_b64char _).1,
      Option.bind_eq_bind, Option.some_bind]
    simp [decByte1, decByte2, Fin.ext_iff]
    omega
  | a :: b :: c :: rest => by
    have ha := a.isLt
    have hb := b.isLt
    have hc := c.isLt
    have ih := b64decodeData_enc rest
    simp only [encDataChars, encChunk3, List.cons_append, List.nil_append,
      b64decodeData, (b64index_b64char _).1, Option.bind_eq_bind,
      Option.some_bind]
    simp [ih, decByte1, decByte2, decByte3, Fin.ext_iff]
    omega

theorem b64index_ascii {c : Char} (h : (b64index c).isSome) : c.toNat < 128 := by
  unfold b64index at h
  split_ifs at h with h1 h2 h3 h4 h5
  · omega
  · omega
  · omega
  · subst h4; decide
  · subst h5; decide
  · simp at h

/-- Round trip of the scripts' base64 helpers: decoding an encoded byte
string recovers it exactly. -/
theorem b64d_b64 (data : Bytes) : b64d (b64 data) = some data := by
  have hgood := encDataChars_good data
  have hkeep : ∀ c ∈ encDataChars data ++ List.replicate (padLen data) '=',
      keepChar c := by
    intro c hc
    rcases List.mem_append.mp hc with h | h
    · simp [keepChar, hgood c h]
    · simp [keepChar, List.eq_of_mem_replicate h]
  have hne : ∀ c ∈ encDataChars data, (c ≠ '=' : Bool) := by
    intro c hc
    have h1 := hgood c hc
    by_contra hne
    simp at hne
    subst hne
    simp [b64index] at h1
  have hascii : ((encDataChars data ++ List.replicate (padLen data) '=').all
      (fun c => c.toNat < 128)) = true := by
    rw [List.all_eq_true]
    intro c hc
    rcases List.mem_append.mp hc with h | h
    · simpa using b64index_ascii (hgood c h)
    · rw [List.eq_of_mem_replicate h]; decide
  rw [b64d, b64]
  simp only [String.data]
  rw [if_pos hascii]
  rw [List.filter_eq_self.mpr hkeep]
  rw [takeWhile_append_of_all hne]
  have hrep : (List.replicate (padLen data) '=').takeWhile (fun c => c ≠ '=') = [] := by
    cases h : padLen data with
    | zero => simp
    | succ n => simp [List.replicate_succ]
  rw [hrep, List.append_nil]
  rw [List.drop_left]
  have hpadtake : (List.replicate (padLen data) '=').takeWhile (fun c => c = '=') =
      List.replicate (padLen data) '=' := by
    apply List.takeWhile_eq_self_iff.mpr
    intro c hc
    simp [List.eq_of_mem_replicate hc]
  rw [hpadtake, List.length_replicate]
  have hlen := encDataChars_len data
  rw [if_neg (by omega), if_neg (by omega)]
  exact b64decodeData_enc data

theorem char_toNat_lt (c : Char) : c.toNat < 1114112 := by
  have h : Nat.isValidChar c.toNat := c.valid
  rcases h with h | ⟨h1, h2⟩
  · exact Nat.lt_trans h (by norm_num)
  · exact h2

/-- UTF-8 encoding of one character, as in Python's `str.encode("utf-8")`. -/
def utf8Bytes (c : Char) : Bytes :=
  if h1 : c.toNat < 128 then [⟨c.toNat, by omega⟩]
  else if h2 : c.toNat < 2048 then
    [⟨192 + c.toNat / 64, by omega⟩, ⟨128 + c.toNat % 64, by omega⟩]
  else if h3 : c.toNat < 65536 then
    [⟨224 + c.toNat / 4096, by omega⟩, ⟨128 + c.toNat / 64 % 64, by omega⟩,
     ⟨128 + c.toNat % 64, by omega⟩]
  else
    [⟨240 + c.toNat / 262144, by have := char_toNat_lt c; omega⟩,
     ⟨128 + c.toNat / 4096 % 64, by omega⟩, ⟨128 + c.toNat / 64 % 64, by omega⟩,
     ⟨128 + c.toNat % 64, by omega⟩]

/-- Model of Python's `text.encode("utf-8")`. -/
def encodeUtf8 (s : String) : Bytes :=
  s.data.foldr (fun c acc => utf8Bytes c ++ acc) []

/-- An AEAD cipher as exposed by the `cryptography` package:
`enc key nonce plaintext aad` and `dec key nonce ciphertext aad` (the
source constructs the cipher object with the key and then calls
`encrypt`/`decrypt`; here the key is passed at the call).  Decryption
returns `none` where the library raises `InvalidTag`. -/
structure Aead where
  enc : Bytes → Bytes → Bytes → Bytes → Bytes
  dec : Bytes → Bytes → Bytes → Bytes → Option Bytes

/-- The runtime environment of the scripts: which AEAD classes imported
successfully (`None` in the source when the import failed) and the
`hashlib.scrypt` primitive
(`scrypt password salt n r p dklen`). -/
structure Ctx where
  xchacha : Option Aead
  chacha : Option Aead
  scrypt : Bytes → Bytes → Nat → Nat → Nat → Nat → Bytes

/-- Module-level state of `crypto_encrypt.py` fixed by its import
fallback block: the selected algorithm name `AEAD`, its `NonceLen`, and
the selected cipher class. -/
structure EncGlobals where
  AEAD : String
  NonceLen : Nat
  cipher : Aead

/-- The invariant established by the import block of
`crypto_encrypt.py`: either XChaCha20Poly1305 was selected (nonce
length 24) or the script fell back to ChaCha20Poly1305 (nonce
length 12); the same class must be the one the decryptor's environment
provides under that name. -/
def EncGlobals.WF (g : EncGlobals) (ctx : Ctx) : Prop :=
  (g.AEAD = "xchacha20poly1305" ∧ g.NonceLen = 24 ∧ ctx.xchacha = some g.cipher) ∨
  (g.AEAD = "chacha20poly1305" ∧ g.NonceLen = 12 ∧ ctx.chacha = some g.cipher)

/-- The six `os.urandom` results consumed by one run of
`crypto_encrypt.py.main`, in call order. -/
structure Urandom where
  kdf_salt : Bytes
  vault_key : Bytes
  nonce_vault : Bytes
  dek : Bytes
  nonce_dekwrap : Bytes
  nonce_payload : Bytes

/-- Ways `crypto_decrypt.py.main` stops without printing a payload.
Constructors record the observable behaviour of the source: `keyErr`
and `b64Err` are uncaught `KeyError` / base64 exceptions (the spec's
`MalformedEnvelope` class), `emptyPassword` is the explicit
`return 2`, `unavailable`/`unsupported` are the uncaught
`RuntimeError`s of `aead_new`, `vaultDecryptFailed` is the caught
vault-layer failure (`return 3`, "decrypt failed (wrong master
password?)"), and `uncaughtTag` is an uncaught `InvalidTag` from the
DEK or payload layer. -/
inductive Halt where
  | keyErr
  | b64Err
  | emptyPassword
  | unavailable (alg : String)
  | unsupported (alg : String)
  | vaultDecryptFailed
  | uncaughtTag
deriving DecidableEq

/-- Ways `crypto_encrypt.py.main` stops early (both are `return 2`). -/
inductive SealHalt where
  | emptyPlaintext
  | emptyPassword
deriving DecidableEq

/-- Events recording which primitive operations a run performs, in
order: an `os.urandom` call, a `hashlib.scrypt` call, an AEAD `encrypt`
call, or an AEAD `decrypt` call (numbered by hierarchy layer:
1 = vault key, 2 = DEK, 3 = payload). -/
inductive Ev where
  | urandomEv
  | scryptEv
  | encEv (layer : Nat)
  | decEv (layer : Nat)
deriving DecidableEq

/-- KDF cost parameters as stored in the envelope document. -/
structure ParamsDoc where
  n : Option Nat
  r : Option Nat
  p : Option Nat
  dk_len : Option Nat
deriving DecidableEq

/-- The `kdf` sub-document of the envelope. -/
structure KdfDoc where
  type : Option String
  salt_b64 : Option String
  params : Option ParamsDoc
deriving DecidableEq

/-- The parsed `demo.json` document as read by `crypto_decrypt.py`.
Every field is optional: `none` models an absent key, on which the
source raises `KeyError`. -/
structure Doc where
  aead : Option String
  kdf : Option KdfDoc
  vault_key_enc_b64 : Option String
  enc_dek_b64 : Option String
  nonce_payload_b64 : Option String
  ciphertext_b64 : Option String
deriving DecidableEq

/-- KDF parameters as written by the encryptor (always present). -/
structure OutParams where
  n : Nat
  r : Nat
  p : Nat
  dk_len : Nat
deriving DecidableEq

/-- The `kdf` object written by the encryptor. -/
structure OutKdf where
  type : String
  salt_b64 : String
  params : OutParams
deriving DecidableEq

/-- The `out` dictionary assembled by `crypto_encrypt.py.main`
(lines 76-87), i.e. the envelope written to `demo.json`. -/
structure Out where
  aead : String
  kdf : OutKdf
  vault_key_enc_b64 : String
  enc_dek_b64 : String
  nonce_payload_b64 : String
  ciphertext_b64 : String
deriving DecidableEq

/-- Reading the written envelope back as a parsed document. -/
def Out.toDoc (o : Out) : Doc :=
  { aead := some o.aead,
    kdf := some { type := some o.kdf.type, salt_b64 := some o.kdf.salt_b64,
                  params := some { n := some o.kdf.params.n, r := some o.kdf.params.r,
                                   p := some o.kdf.params.p, dk_len := some o.kdf.params.dk_len } },
    vault_key_enc_b64 := some o.vault_key_enc_b64,
    enc_dek_b64 := some o.enc_dek_b64,
    nonce_payload_b64 := some o.nonce_payload_b64,
    ciphertext_b64 := some o.ciphertext_b64 }

/-- Model of `crypto_decrypt.py.aead_new` (lines 23-32): select the
AEAD class named by the envelope, fail on an unavailable class
(`RuntimeError`, modelled `unavailable`) or an unknown identifier
(`RuntimeError("unsupported AEAD: ...")`, modelled `unsupported`), and
return the class together with its nonce length (24 or 12). -/
def aead_new (ctx : Ctx) (aead : String) : Except Halt (Aead × Nat) :=
  if aead = "xchacha20poly1305" then
    match ctx.xchacha with
    | none => .error (.unavailable aead)
    | some a => .ok (a, 24)
  else if aead = "chacha20poly1305" then
    match ctx.chacha with
    | none => .error (.unavailable aead)
    | some a => .ok (a, 12)
  else .error (.unsupported aead)

/-- Dictionary access `payload[key]`: `KeyError` when the key is absent. -/
def getField {α : Type} : Option α → Except Halt α
  | none => .error .keyErr
  | some a => .ok a

/-- The composite `b64d(payload[key])` used for every base64 field. -/
def fieldB64 (o : Option String) : Except Halt Bytes :=
  match o with
  | none => .error .keyErr
  | some s =>
    match b64d s with
    | none => .error .b64Err
    | some bs => .ok bs

/-- The slicing `blob[:nonce_len], blob[nonce_len:]` of
`crypto_decrypt.py` lines 67 and 75 (total: a short blob yields the
whole blob and an empty remainder). -/
def splitBlob (nonce_len : Nat) (blob : Bytes) : Bytes × Bytes :=
  (blob.take nonce_len, blob.drop nonce_len)

/-- Split a wrapped-key blob at the algorithm's nonce length and open
it with the given key (lines 67-69 and 75-76 of the source). -/
def unwrapLayer (a : Aead) (nonce_len : Nat) (key blob : Bytes) : Option Bytes :=
  a.dec key (splitBlob nonce_len blob).1 (splitBlob nonce_len blob).2 []

/-- Lines 54-64 of `crypto_decrypt.py`: read the stored KDF metadata
and re-derive the master key with `hashlib.scrypt`. -/
def kdfPhase (ctx : Ctx) (doc : Doc) (password : String) : Except Halt Bytes := do
  let kdf ← getField doc.kdf
  let params ← getField kdf.params
  let kdf_salt ← fieldB64 kdf.salt_b64
  let n ← getField params.n
  let r ← getField params.r
  let p ← getField params.p
  let dk_len ← getField params.dk_len
  .ok (ctx.scrypt (encodeUtf8 password) kdf_salt n r p dk_len)

/-- Sequencing helper threading the event trace: stop on the first
error, keeping the trace accumulated so far. -/
def step {α β : Type} (x : Except Halt α) (tr : List Ev)
    (k : α → List Ev → Except Halt β × List Ev) : Except Halt β × List Ev :=
  match x with
  | .error e => (.error e, tr)
  | .ok a => k a tr

/-- Model of `crypto_decrypt.py.main` (lines 35-82), given a parsed
document: read and base64-decode the envelope fields, reject an empty
password, re-derive the master key, then unwrap vault key, DEK and
payload in turn, stopping at the first failure.  The second component
records the primitive crypto operations performed, in order. -/
def openMain (ctx : Ctx) (doc : Doc) (password : String) :
    Except Halt Bytes × List Ev :=
  step (getField doc.aead) [] fun aead tr =>
  step (fieldB64 doc.vault_key_enc_b64) tr fun vault_key_enc tr =>
  step (fieldB64 doc.enc_dek_b64) tr fun enc_dek tr =>
  step (fieldB64 doc.nonce_payload_b64) tr fun nonce_payload tr =>
  step (fieldB64 doc.ciphertext_b64) tr fun ciphertext tr =>
  if password = "" then (.error .emptyPassword, tr)
  else
  step (kdfPhase ctx doc password) tr fun master_key tr =>
  let tr := tr ++ [Ev.scryptEv]
  step (aead_new ctx aead) tr fun wm tr =>
  let tr := tr ++ [Ev.decEv 1]
  match unwrapLayer wm.1 wm.2 master_key vault_key_enc with
  | none => (.error .vaultDecryptFailed, tr)
  | some vault_key =>
  step (aead_new ctx aead) tr fun w2 tr =>
  let tr := tr ++ [Ev.decEv 2]
  match unwrapLayer w2.1 w2.2 vault_key enc_dek with
  | none => (.error .uncaughtTag, tr)
  | some dek =>
  step (aead_new ctx aead) tr fun w3 tr =>
  let tr := tr ++ [Ev.decEv 3]
  match w3.1.dec dek nonce_payload ciphertext [] with
  | none => (.error .uncaughtTag, tr)
  | some plaintext => (.ok plaintext, tr)

/-- Model of `crypto_encrypt.py.main` (lines 38-111): reject empty
inputs, derive the master key, wrap the vault key under it, wrap the
DEK under the vault key, encrypt the payload under the DEK, and
assemble the envelope.  The `Urandom` argument carries the `os.urandom`
results in call order; the second component records the primitive
operations performed. -/
def sealMain (ctx : Ctx) (g : EncGlobals) (plaintext : Bytes)
    (master_password : String) (rnd : Urandom) : Except SealHalt Out × List Ev :=
  if plaintext = [] then (.error .emptyPlaintext, [])
  else if master_password = "" then (.error .emptyPassword, [])
  else
    let master_key := ctx.scrypt (encodeUtf8 master_password) rnd.kdf_salt 16384 8 1 32
    let vault_key_enc := g.cipher.enc master_key rnd.nonce_vault rnd.vault_key []
    let ct_dekwrap := g.cipher.enc rnd.vault_key rnd.nonce_dekwrap rnd.dek []
    let enc_dek := rnd.nonce_dekwrap ++ ct_dekwrap
    let ciphertext := g.cipher.enc rnd.dek rnd.nonce_payload plaintext []
    (.ok { aead := g.AEAD,
           kdf := { type := "scrypt", salt_b64 := b64 rnd.kdf_salt,
                    params := { n := 16384, r := 8, p := 1, dk_len := 32 } },
           vault_key_enc_b64 := b64 (rnd.nonce_vault ++ vault_key_enc),
           enc_dek_b64 := b64 enc_dek,
           nonce_payload_b64 := b64 rnd.nonce_payload,
           ciphertext_b64 := b64 ciphertext },
     [Ev.urandomEv, Ev.scryptEv, Ev.urandomEv, Ev.urandomEv, Ev.encEv 1,
      Ev.urandomEv, Ev.urandomEv, Ev.encEv 2, Ev.urandomEv, Ev.encEv 3])

/-- Byte sum used by the toy integrity tag. -/
def bsum (l : Bytes) : Nat := l.foldr (fun b acc => b.val + acc) 0

/-- Integrity tag of the toy AEAD instance. -/
def toyTag (k n pt : Bytes) : Byte :=
  ⟨(3 * bsum k + 5 * bsum n + 7 * bsum pt + pt.length) % 256, Nat.mod_lt _ (by norm_num)⟩

/-- A concrete executable AEAD instance used to instantiate the
abstract cipher parameter in witnesses: the ciphertext is the plaintext
followed by a one-byte tag over key, nonce and plaintext, and
decryption recomputes and checks the tag. -/
def toyAead : Aead where
  enc := fun k n pt _ => pt ++ [toyTag k n pt]
  dec := fun k n ct _ =>
    match ct.getLast? with
    | none => none
    | some t => if t = toyTag k n ct.dropLast then some ct.dropLast else none

/-- A concrete executable KDF instance for witnesses. -/
def toyScrypt : Bytes → Bytes → Nat → Nat → Nat → Nat → Bytes :=
  fun pw salt _ _ _ _ => pw ++ salt

/-- A concrete runtime environment for witnesses. -/
def toyCtx : Ctx :=
  { xchacha := some toyAead, chacha := some toyAead, scrypt := toyScrypt }

/-- Concrete encryptor globals for witnesses (the ChaCha20Poly1305
fallback branch of the import block, nonce length 12). -/
def gToy : EncGlobals :=
  { AEAD := "chacha20poly1305", NonceLen := 12, cipher := toyAead }

/-- Concrete payload for witnesses. -/
def ptC : Bytes := [104, 105]

/-- Concrete `os.urandom` results for witnesses, with the lengths the
source requests (16-byte salt, 32-byte keys, nonce-length nonces). -/
def rndC : Urandom :=
  { kdf_salt := List.replicate 16 7,
    vault_key := List.replicate 32 4,
    nonce_vault := List.replicate 12 1,
    dek := List.replicate 32 5,
    nonce_dekwrap := List.replicate 12 2,
    nonce_payload := List.replicate 12 3 }

/-- Rendering of the KDF params object by
`json.dumps(params, sort_keys=True)` (keys in sorted order). -/
def paramsJson (p : OutParams) : String :=
  "\x7b\"dk_len\": " ++ toString p.dk_len ++ ", \"n\": " ++ toString p.n ++
    ", \"p\": " ++ toString p.p ++ ", \"r\": " ++ toString p.r ++ "\x7d"

/-- Field paths and values of the structured `demo.json` document as
serialized by `json.dump(out, handle, indent=2, sort_keys=True)`
(line 89 of `crypto_encrypt.py`), keys in sorted order. -/
def jsonRendering (o : Out) : List (String × String) :=
  [("aead", o.aead), ("ciphertext_b64", o.ciphertext_b64),
   ("enc_dek_b64", o.enc_dek_b64), ("kdf.params", paramsJson o.kdf.params),
   ("kdf.salt_b64", o.kdf.salt_b64), ("kdf.type", o.kdf.type),
   ("nonce_payload_b64", o.nonce_payload_b64),
   ("vault_key_enc_b64", o.vault_key_enc_b64)]

/-- Field paths and values of the annotated `demo.jsonc` rendering, in
the hardcoded order the writer emits them (lines 90-109 of
`crypto_encrypt.py`, interpolating the same `out` dictionary). -/
def jsoncRendering (o : Out) : List (String × String) :=
  [("aead", o.aead), ("vault_key_enc_b64", o.vault_key_enc_b64),
   ("enc_dek_b64", o.enc_dek_b64), ("nonce_payload_b64", o.nonce_payload_b64),
   ("ciphertext_b64", o.ciphertext_b64), ("kdf.type", o.kdf.type),
   ("kdf.salt_b64", o.kdf.salt_b64), ("kdf.params", paramsJson o.kdf.params)]

theorem step_ok {α β : Type} (a : α) (tr : List Ev)
    (k : α → List Ev → Except Halt β × List Ev) : step (.ok a) tr k = k a tr := rfl

theorem step_error {α β : Type} (e : Halt) (tr : List Ev)
    (k : α → List Ev → Except Halt β × List Ev) : step (.error e) tr k = (.error e, tr) := rfl

theorem except_bind_ok {ε α β : Type} (a : α) (f : α → Except ε β) :
    (Except.ok a : Except ε α) >>= f = f a := rfl

theorem except_bind_error {ε α β : Type} (e : ε) (f : α → Except ε β) :
    (Except.error e : Except ε α) >>= f = .error e := rfl

theorem fieldB64_b64 (bs : Bytes) : fieldB64 (some (b64 bs)) = .ok bs := by
  simp [fieldB64, b64d_b64]

theorem unwrapLayer_append (a : Aead) (n : Nat) (key nonce ct : Bytes)
    (hn : nonce.length = n) :
    unwrapLayer a n key (nonce ++ ct) = a.dec key nonce ct [] := by
  subst hn
  simp [unwrapLayer, splitBlob, List.take_left, List.drop_left]

/-- C1 (confirmed): Round-trip.  For every non-empty payload and
non-empty password, opening the envelope produced by sealing with the
same password returns exactly the payload.  The hypotheses record the
environment invariants of the source (nonce lengths produced by
`os.urandom(NonceLen)`, the import-block selection `g.WF ctx`) and the
correctness of the trusted AEAD primitive at the three (key, nonce)
pairs the run uses. -/
theorem seal_open_roundTrip (ctx : Ctx) (g : EncGlobals) (rnd : Urandom)
    (pt : Bytes) (pw : String)
    (hpt : pt ≠ []) (hpw : ¬ pw = "")
    (hg : g.WF ctx)
    (hnv : rnd.nonce_vault.length = g.NonceLen)
    (hnd : rnd.nonce_dekwrap.length = g.NonceLen)
    (h1 : g.cipher.dec (ctx.scrypt (encodeUtf8 pw) rnd.kdf_salt 16384 8 1 32)
        rnd.nonce_vault
        (g.cipher.enc (ctx.scrypt (encodeUtf8 pw) rnd.kdf_salt 16384 8 1 32)
          rnd.nonce_vault rnd.vault_key []) [] = some rnd.vault_key)
    (h2 : g.cipher.dec rnd.vault_key rnd.nonce_dekwrap
        (g.cipher.enc rnd.vault_key rnd.nonce_dekwrap rnd.dek []) [] = some rnd.dek)
    (h3 : g.cipher.dec rnd.dek rnd.nonce_payload
        (g.cipher.enc rnd.dek rnd.nonce_payload pt []) [] = some pt) :
    ∀ out : Out, (sealMain ctx g pt pw rnd).1 = .ok out →
      (openMain ctx out.toDoc pw).1 = .ok pt := by
  intro out hout
  rw [sealMain, if_neg hpt, if_neg hpw] at hout
  simp only [Except.ok.injEq] at hout
  subst hout
  rcases hg with ⟨hA, hN, hC⟩ | ⟨hA, hN, hC⟩ <;>
  · rw [hA]
    simp only [openMain, Out.toDoc, getField, fieldB64_b64, step_ok,
      if_neg hpw, kdfPhase, except_bind_ok, aead_new, hC, reduceIte,
      String.reduceEq, unwrapLayer_append, hnv.trans hN, hnd.trans hN, h1, h2, h3]

/-- Master key of the concrete witness run. -/
def mkC : Bytes := toyScrypt (encodeUtf8 "pw") rndC.kdf_salt 16384 8 1 32

/-- Wrapped vault key blob of the concrete witness run. -/
def vkeBlobC : Bytes :=
  rndC.nonce_vault ++ toyAead.enc mkC rndC.nonce_vault rndC.vault_key []

/-- Wrapped DEK blob of the concrete witness run. -/
def dekBlobC : Bytes :=
  rndC.nonce_dekwrap ++ toyAead.enc rndC.vault_key rndC.nonce_dekwrap rndC.dek []

/-- Payload ciphertext of the concrete witness run. -/
def payloadCtC : Bytes := toyAead.enc rndC.dek rndC.nonce_payload ptC []

/-- The envelope produced by the concrete witness run of `sealMain`. -/
def outC : Out :=
  { aead := "chacha20poly1305",
    kdf := { type := "scrypt", salt_b64 := b64 rndC.kdf_salt,
             params := { n := 16384, r := 8, p := 1, dk_len := 32 } },
    vault_key_enc_b64 := b64 vkeBlobC,
    enc_dek_b64 := b64 dekBlobC,
    nonce_payload_b64 := b64 rndC.nonce_payload,
    ciphertext_b64 := b64 payloadCtC }

theorem seal_open_roundTrip_witness :
    (openMain toyCtx outC.toDoc "pw").1 = .ok ptC :=
  seal_open_roundTrip toyCtx gToy rndC ptC "pw" (by decide) (by decide)
    (Or.inr ⟨rfl, rfl, rfl⟩) (by decide) (by decide) (by decide) (by decide)
    (by decide) outC rfl

/-- C3 (confirmed): Wrong password fails closed.  For distinct
non-empty passwords, opening an envelope sealed under the first with
the second stops at the vault layer with the caught decryption failure
(`return 3`, the spec's `DecryptionFailed`) and returns no data.  The
hypothesis `hrej` is the authenticity property assumed of the trusted
AEAD: under the master key derived from the wrong password the wrapped
vault key does not authenticate. -/
theorem wrong_password_fails_closed (ctx : Ctx) (g : EncGlobals) (rnd : Urandom)
    (pt : Bytes) (W1 W2 : String)
    (hpt : pt ≠ []) (hW1 : ¬ W1 = "") (hW2 : ¬ W2 = "") (hne : W1 ≠ W2)
    (hg : g.WF ctx)
    (hnv : rnd.nonce_vault.length = g.NonceLen)
    (hrej : g.cipher.dec (ctx.scrypt (encodeUtf8 W2) rnd.kdf_salt 16384 8 1 32)
        rnd.nonce_vault
        (g.cipher.enc (ctx.scrypt (encodeUtf8 W1) rnd.kdf_salt 16384 8 1 32)
          rnd.nonce_vault rnd.vault_key []) [] = none) :
    ∀ out : Out, (sealMain ctx g pt W1 rnd).1 = .ok out →
      (openMain ctx out.toDoc W2).1 = .error .vaultDecryptFailed := by
  intro out hout
  rw [sealMain, if_neg hpt, if_neg hW1] at hout
  simp only [Except.ok.injEq] at hout
  subst hout
  rcases hg with ⟨hA, hN, hC⟩ | ⟨hA, hN, hC⟩ <;>
  · rw [hA]
    simp only [openMain, Out.toDoc, getField, fieldB64_b64, step_ok,
      if_neg hW2, kdfPhase, except_bind_ok, aead_new, hC, reduceIte,
      String.reduceEq, unwrapLayer_append, hnv.trans hN, hrej]

theorem wrong_password_fails_closed_witness :
    (openMain toyCtx outC.toDoc "qw").1 = .error .vaultDecryptFailed :=
  wrong_password_fails_closed toyCtx gToy rndC ptC "pw" "qw" (by decide)
    (by decide) (by decide) (by decide) (Or.inr ⟨rfl, rfl, rfl⟩) (by decide)
    (by decide) outC rfl

/-- Flip bit `j` of the byte at position `i` (the tampering operation
of the claim: a single-bit flip in a serialized field). -/
def flipBit (bs : Bytes) (i : Nat) (j : Fin 8) : Bytes :=
  bs.set i ⟨Nat.xor (bs.getD i 0).val (2 ^ j.val) % 256, Nat.mod_lt _ (by norm_num)⟩

/-- The witness envelope with one bit flipped in the vault-key wrap field. -/
def docTamperVault : Doc :=
  { outC.toDoc with vault_key_enc_b64 := some (b64 (flipBit vkeBlobC 13 0)) }

/-- The witness envelope with one bit flipped in the DEK wrap field. -/
def docTamperDek : Doc :=
  { outC.toDoc with enc_dek_b64 := some (b64 (flipBit dekBlobC 13 0)) }

/-- C2 (code_bug): flipping one bit in the vault-key wrap makes `Open`
fail through the caught path (`return 3`, stderr "decrypt failed
(wrong master password?)"), but flipping one bit in the DEK wrap makes
the same run die with an uncaught `InvalidTag` (lines 74-76 of
`crypto_decrypt.py` are outside any try/except), an observably
different failure.  The spec requires the failure to be
`DecryptionFailed` at every layer, indistinguishable across layers; the
code leaks which layer failed. -/
theorem tamper_layer_distinguishable :
    (openMain toyCtx docTamperVault "pw").1 = .error .vaultDecryptFailed ∧
    (openMain toyCtx docTamperDek "pw").1 = .error .uncaughtTag ∧
    Halt.uncaughtTag ≠ Halt.vaultDecryptFailed :=
  ⟨rfl, rfl, by decide⟩

/-- C5 counterexample: the payload of a sealed envelope does not
travel as a single `nonce || ciphertext` base64 blob; at the concrete
witness envelope, `ciphertext_b64` is not the base64 of
`nonce_payload ++ payload_ciphertext`. -/
theorem payload_fields_separate_cex :
    (sealMain toyCtx gToy ptC "pw" rndC).1 = .ok outC ∧
    outC.ciphertext_b64 ≠ b64 (rndC.nonce_payload ++ payloadCtC) :=
  ⟨rfl, by decide⟩

/-- C5 (corrected): the two wrapped keys are each encoded as
`nonce_bytes || ciphertext_bytes` base64-encoded, but the payload nonce
and payload ciphertext are stored as two separate base64 fields
(`nonce_payload_b64` and `ciphertext_b64`, lines 83-86 of
`crypto_encrypt.py`). -/
theorem envelope_layout_amended (ctx : Ctx) (g : EncGlobals) (rnd : Urandom)
    (pt : Bytes) (pw : String) (hpt : pt ≠ []) (hpw : ¬ pw = "") :
    ∀ out : Out, (sealMain ctx g pt pw rnd).1 = .ok out →
      out.vault_key_enc_b64 = b64 (rnd.nonce_vault ++
          g.cipher.enc (ctx.scrypt (encodeUtf8 pw) rnd.kdf_salt 16384 8 1 32)
            rnd.nonce_vault rnd.vault_key []) ∧
      out.enc_dek_b64 = b64 (rnd.nonce_dekwrap ++
          g.cipher.enc rnd.vault_key rnd.nonce_dekwrap rnd.dek []) ∧
      out.nonce_payload_b64 = b64 rnd.nonce_payload ∧
      out.ciphertext_b64 = b64 (g.cipher.enc rnd.dek rnd.nonce_payload pt []) := by
  intro out hout
  rw [sealMain, if_neg hpt, if_neg hpw] at hout
  simp only [Except.ok.injEq] at hout
  subst hout
  exact ⟨rfl, rfl, rfl, rfl⟩

theorem envelope_layout_amended_witness :
    outC.vault_key_enc_b64 = b64 (rndC.nonce_vault ++
        toyAead.enc (toyCtx.scrypt (encodeUtf8 "pw") rndC.kdf_salt 16384 8 1 32)
          rndC.nonce_vault rndC.vault_key []) ∧
    outC.enc_dek_b64 = b64 (rndC.nonce_dekwrap ++
        toyAead.enc rndC.vault_key rndC.nonce_dekwrap rndC.dek []) ∧
    outC.nonce_payload_b64 = b64 rndC.nonce_payload ∧
    outC.ciphertext_b64 = b64 (toyAead.enc rndC.dek rndC.nonce_payload ptC []) :=
  envelope_layout_amended toyCtx gToy rndC ptC "pw" (by decide) (by decide) outC rfl

/-- C7 (confirmed): Empty-input rejection.  An empty payload stops
`Seal` with `EmptyPayload` and an empty password stops it with
`EmptyCredential`, both with an empty event trace (no key derivation,
key generation or encryption was performed); an empty password stops
`Open` with `EmptyCredential` and an empty trace, for every document
whose `aead` and four base64 fields read successfully (in the source
those reads precede the password prompt). -/
theorem empty_input_rejection :
    (∀ (ctx : Ctx) (g : EncGlobals) (pw : String) (rnd : Urandom),
        sealMain ctx g [] pw rnd = (.error .emptyPlaintext, [])) ∧
    (∀ (ctx : Ctx) (g : EncGlobals) (pt : Bytes) (rnd : Urandom), pt ≠ [] →
        sealMain ctx g pt "" rnd = (.error .emptyPassword, [])) ∧
    (∀ (ctx : Ctx) (doc : Doc) (alg : String) (v1 v2 v3 v4 : Bytes),
        doc.aead = some alg →
        fieldB64 doc.vault_key_enc_b64 = .ok v1 →
        fieldB64 doc.enc_dek_b64 = .ok v2 →
        fieldB64 doc.nonce_payload_b64 = .ok v3 →
        fieldB64 doc.ciphertext_b64 = .ok v4 →
        openMain ctx doc "" = (.error .emptyPassword, [])) := by
  refine ⟨fun ctx g pw rnd => by simp [sealMain],
    fun ctx g pt rnd hpt => by simp [sealMain, hpt], ?_⟩
  intro ctx doc alg v1 v2 v3 v4 hA h1 h2 h3 h4
  simp [openMain, hA, h1, h2, h3, h4, getField, step_ok]

theorem empty_input_rejection_witness :
    sealMain toyCtx gToy [] "pw" rndC = (.error .emptyPlaintext, []) ∧
    sealMain toyCtx gToy ptC "" rndC = (.error .emptyPassword, []) ∧
    openMain toyCtx outC.toDoc "" = (.error .emptyPassword, []) :=
  ⟨empty_input_rejection.1 toyCtx gToy "pw" rndC,
   empty_input_rejection.2.1 toyCtx gToy ptC rndC (by decide),
   empty_input_rejection.2.2 toyCtx outC.toDoc "chacha20poly1305"
     vkeBlobC dekBlobC rndC.nonce_payload payloadCtC rfl
     (fieldB64_b64 vkeBlobC) (fieldB64_b64 dekBlobC)
     (fieldB64_b64 rndC.nonce_payload) (fieldB64_b64 payloadCtC)⟩

/-- C8 (confirmed): KDF determinism and parameter reuse.  The KDF is
a pure function in this model, so two invocations on identical inputs
are definitionally equal (first conjunct); the substantive content is
the second conjunct: the envelope stores exactly the salt and cost
parameters Seal used, and `Open`'s derivation phase (lines 54-64 of
`crypto_decrypt.py`) re-derives from those stored values precisely the
master key Seal derived. -/
theorem kdf_determinism_reuse (ctx : Ctx) (g : EncGlobals) (rnd : Urandom)
    (pt : Bytes) (pw : String) (hpt : pt ≠ []) (hpw : ¬ pw = "") :
    (∀ (pwb salt : Bytes) (n r p dk : Nat),
        ctx.scrypt pwb salt n r p dk = ctx.scrypt pwb salt n r p dk) ∧
    (∀ out : Out, (sealMain ctx g pt pw rnd).1 = .ok out →
      out.kdf.salt_b64 = b64 rnd.kdf_salt ∧
      out.kdf.params = { n := 16384, r := 8, p := 1, dk_len := 32 } ∧
      kdfPhase ctx out.toDoc pw =
        .ok (ctx.scrypt (encodeUtf8 pw) rnd.kdf_salt 16384 8 1 32)) := by
  refine ⟨fun _ _ _ _ _ _ => rfl, ?_⟩
  intro out hout
  rw [sealMain, if_neg hpt, if_neg hpw] at hout
  simp only [Except.ok.injEq] at hout
  subst hout
  refine ⟨rfl, rfl, ?_⟩
  simp [kdfPhase, Out.toDoc, getField, fieldB64_b64, except_bind_ok]

theorem kdf_determinism_reuse_witness :
    toyCtx.scrypt ptC rndC.kdf_salt 1 2 3 4 = toyCtx.scrypt ptC rndC.kdf_salt 1 2 3 4 ∧
    (outC.kdf.salt_b64 = b64 rndC.kdf_salt ∧
     outC.kdf.params = { n := 16384, r := 8, p := 1, dk_len := 32 } ∧
     kdfPhase toyCtx outC.toDoc "pw" =
       .ok (toyCtx.scrypt (encodeUtf8 "pw") rndC.kdf_salt 16384 8 1 32)) :=
  ⟨(kdf_determinism_reuse toyCtx gToy rndC ptC "pw" (by decide) (by decide)).1
      ptC rndC.kdf_salt 1 2 3 4,
   (kdf_determinism_reuse toyCtx gToy rndC ptC "pw" (by decide) (by decide)).2
      outC rfl⟩

/-- C9 (confirmed): the annotated `demo.jsonc` rendering carries
exactly the same field values as the structured `demo.json` document:
both renderings, viewed as sets of (field path, value) pairs, are
equal for every assembled envelope. -/
theorem jsonc_matches_json_rendering (o : Out) (key value : String) :
    (key, value) ∈ jsoncRendering o ↔ (key, value) ∈ jsonRendering o := by
  constructor <;>
  · intro h
    simp only [jsonRendering, jsoncRendering, List.mem_cons,
      List.not_mem_nil, or_false] at h ⊢
    tauto

/-- C10 (confirmed): the decoder never length-checks a wrapped-key
blob; a blob shorter than the nonce length splits totally into the
whole blob as nonce and an empty ciphertext, and such a defect
surfaces as the vault-layer decryption failure (after structural
parsing and KDF derivation), not as a structural rejection. -/
theorem short_blob_total_split (ctx : Ctx) (a : Aead) (pw : String)
    (blob d2 d3 d4 salt : Bytes) (kt : String) (n r p dk : Nat)
    (hx : ctx.xchacha = some a) (hpw : ¬ pw = "")
    (hshort : blob.length < 24)
    (hfail : a.dec (ctx.scrypt (encodeUtf8 pw) salt n r p dk) blob [] [] = none) :
    splitBlob 24 blob = (blob, []) ∧
    openMain ctx
      { aead := some "xchacha20poly1305",
        kdf := some { type := some kt, salt_b64 := some (b64 salt),
                      params := some { n := some n, r := some r, p := some p,
                                       dk_len := some dk } },
        vault_key_enc_b64 := some (b64 blob),
        enc_dek_b64 := some (b64 d2),
        nonce_payload_b64 := some (b64 d3),
        ciphertext_b64 := some (b64 d4) } pw =
      (.error .vaultDecryptFailed, [Ev.scryptEv, Ev.decEv 1]) := by
  have htake : blob.take 24 = blob := List.take_of_length_le (le_of_lt hshort)
  have hdrop : blob.drop 24 = [] := List.drop_of_length_le (le_of_lt hshort)
  constructor
  · simp [splitBlob, htake, hdrop]
  · simp only [openMain, getField, fieldB64_b64, step_ok, if_neg hpw,
      kdfPhase, except_bind_ok, aead_new, reduceIte, hx,
      unwrapLayer, splitBlob, htake, hdrop, hfail]
    rfl

theorem short_blob_total_split_witness :
    splitBlob 24 [9] = ([9], []) ∧
    openMain toyCtx
      { aead := some "xchacha20poly1305",
        kdf := some { type := some "scrypt", salt_b64 := some (b64 rndC.kdf_salt),
                      params := some { n := some 16384, r := some 8, p := some 1,
                                       dk_len := some 32 } },
        vault_key_enc_b64 := some (b64 [9]),
        enc_dek_b64 := some (b64 dekBlobC),
        nonce_payload_b64 := some (b64 rndC.nonce_payload),
        ciphertext_b64 := some (b64 payloadCtC) } "pw" =
      (.error .vaultDecryptFailed, [Ev.scryptEv, Ev.decEv 1]) :=
  short_blob_total_split toyCtx toyAead "pw" [9] dekBlobC rndC.nonce_payload
    payloadCtC rndC.kdf_salt "scrypt" 16384 8 1 32 rfl (by decide) (by decide) rfl

theorem getField_error {α : Type} {o : Option α} {e : Halt}
    (h : getField o = .error e) : e = .keyErr := by
  rcases o with _ | a
  · exact (Except.error.inj h).symm
  · simp [getField] at h

theorem fieldB64_error {o : Option String} {e : Halt} (h : fieldB64 o = .error e) :
    e = .keyErr ∨ e = .b64Err := by
  rcases o with _ | s
  · exact Or.inl (Except.error.inj h).symm
  · simp only [fieldB64] at h
    rcases hb : b64d s with _ | bs <;> rw [hb] at h
    · exact Or.inr (Except.error.inj h).symm
    · simp at h

theorem kdfPhase_error {ctx : Ctx} {doc : Doc} {pw : String} {e : Halt}
    (h : kdfPhase ctx doc pw = .error e) : e = .keyErr ∨ e = .b64Err := by
  unfold kdfPhase at h
  cases h1 : getField doc.kdf with
  | error e1 =>
    rw [h1, except_bind_error] at h
    cases Except.error.inj h
    exact Or.inl (getField_error h1)
  | ok kdf =>
  rw [h1, except_bind_ok] at h
  cases h2 : getField kdf.params with
  | error e2 =>
    rw [h2, except_bind_error] at h
    cases Except.error.inj h
    exact Or.inl (getField_error h2)
  | ok ps =>
  rw [h2, except_bind_ok] at h
  cases h3 : fieldB64 kdf.salt_b64 with
  | error e3 =>
    rw [h3, except_bind_error] at h
    cases Except.error.inj h
    exact fieldB64_error h3
  | ok salt =>
  rw [h3, except_bind_ok] at h
  cases h4 : getField ps.n with
  | error e4 =>
    rw [h4, except_bind_error] at h
    cases Except.error.inj h
    exact Or.inl (getField_error h4)
  | ok n =>
  rw [h4, except_bind_ok] at h
  cases h5 : getField ps.r with
  | error e5 =>
    rw [h5, except_bind_error] at h
    cases Except.error.inj h
    exact Or.inl (getField_error h5)
  | ok r =>
  rw [h5, except_bind_ok] at h
  cases h6 : getField ps.p with
  | error e6 =>
    rw [h6, except_bind_error] at h
    cases Except.error.inj h
    exact Or.inl (getField_error h6)
  | ok p =>
  rw [h6, except_bind_ok] at h
  cases h7 : getField ps.dk_len with
  | error e7 =>
    rw [h7, except_bind_error] at h
    cases Except.error.inj h
    exact Or.inl (getField_error h7)
  | ok dk =>
  rw [h7, except_bind_ok] at h
  simp at h

theorem aead_new_error {ctx : Ctx} {alg : String} {e : Halt}
    (h : aead_new ctx alg = .error e) :
    e = .unavailable alg ∨ e = .unsupported alg := by
  unfold aead_new at h
  split_ifs at h
  · cases hx : ctx.xchacha <;> rw [hx] at h
    · exact Or.inl (Except.error.inj h).symm
    · simp at h
  · cases hx : ctx.chacha <;> rw [hx] at h
    · exact Or.inl (Except.error.inj h).symm
    · simp at h
  · exact Or.inr (Except.error.inj h).symm

/-- C4 (corrected): malformed base64 and missing required fields make
`Open` fail with an empty event trace (before any cryptographic
operation), but an unknown AEAD algorithm identifier fails only after
the KDF derivation has been performed (trace exactly `[scryptEv]`),
though still before any AEAD decryption. -/
theorem structural_rejection_amended (ctx : Ctx) (doc : Doc) (pw : String) :
    (((openMain ctx doc pw).1 = .error .keyErr ∨
        (openMain ctx doc pw).1 = .error .b64Err) →
      (openMain ctx doc pw).2 = []) ∧
    (∀ alg, (openMain ctx doc pw).1 = .error (.unsupported alg) →
      (openMain ctx doc pw).2 = [Ev.scryptEv]) := by
  unfold openMain
  cases hA : doc.aead with
  | none => simp [getField, step_error]
  | some alg0 =>
  simp only [getField, step_ok]
  cases h1 : fieldB64 doc.vault_key_enc_b64 with
  | error e1 => rcases fieldB64_error h1 with rfl | rfl <;> simp [step_error]
  | ok v1 =>
  simp only [step_ok]
  cases h2 : fieldB64 doc.enc_dek_b64 with
  | error e2 => rcases fieldB64_error h2 with rfl | rfl <;> simp [step_error]
  | ok v2 =>
  simp only [step_ok]
  cases h3 : fieldB64 doc.nonce_payload_b64 with
  | error e3 => rcases fieldB64_error h3 with rfl | rfl <;> simp [step_error]
  | ok v3 =>
  simp only [step_ok]
  cases h4 : fieldB64 doc.ciphertext_b64 with
  | error e4 => rcases fieldB64_error h4 with rfl | rfl <;> simp [step_error]
  | ok v4 =>
  simp only [step_ok]
  by_cases hpw : pw = ""
  · simp [hpw]
  simp only [if_neg hpw]
  cases hk : kdfPhase ctx doc pw with
  | error ek => rcases kdfPhase_error hk with rfl | rfl <;> simp [step_error]
  | ok mk =>
  simp only [step_ok]
  cases ha : aead_new ctx alg0 with
  | error ea => rcases aead_new_error ha with rfl | rfl <;> simp [step_error]
  | ok wm =>
  simp only [step_ok]
  cases hu1 : unwrapLayer wm.1 wm.2 mk v1 with
  | none => simp
  | some vk =>
  dsimp only
  cases hu2 : unwrapLayer wm.1 wm.2 vk v2 with
  | none => simp
  | some dek =>
  dsimp only
  cases hp : wm.1.dec dek v3 v4 [] with
  | none => simp
  | some pt => simp

/-- The witness envelope with its algorithm identifier replaced by an
unknown one. -/
def docUnknownAead : Doc := { outC.toDoc with aead := some "aes256gcm" }

/-- The witness envelope with its algorithm identifier removed. -/
def docMissingAead : Doc := { outC.toDoc with aead := none }

/-- C4 counterexample: on a concrete envelope whose `aead` field names
an unknown algorithm, `Open` does fail on the identifier, but its
event trace is `[scryptEv]`: the scrypt KDF derivation was performed
before the failure, contradicting the claim that this failure occurs
before any cryptographic operation including KDF derivation
(`aead_new` is only called at line 66 of `crypto_decrypt.py`, after
the `hashlib.scrypt` call at lines 57-64). -/
theorem unknown_aead_after_kdf_cex :
    openMain toyCtx docUnknownAead "pw" =
      (.error (.unsupported "aes256gcm"), [Ev.scryptEv]) := rfl

theorem structural_rejection_amended_witness :
    (openMain toyCtx docMissingAead "pw").2 = [] ∧
    (openMain toyCtx docUnknownAead "pw").2 = [Ev.scryptEv] :=
  ⟨(structural_rejection_amended toyCtx docMissingAead "pw").1 (Or.inl rfl),
   (structural_rejection_amended toyCtx docUnknownAead "pw").2 "aes256gcm" rfl⟩

/-- C6 (confirmed): the nonce/ciphertext split is driven by the nonce
length the AEAD adapter declares for the envelope's stored algorithm
identifier — 24 for `xchacha20poly1305`, 12 for `chacha20poly1305`,
nothing else — and every wrapped-key blob is split into its first
`nonce_len` bytes as the nonce and the remainder as the ciphertext. -/
theorem nonce_length_driven_split :
    (∀ (ctx : Ctx) (alg : String) (a : Aead) (nl : Nat),
        aead_new ctx alg = .ok (a, nl) →
          (alg = "xchacha20poly1305" ∧ nl = 24 ∧ ctx.xchacha = some a) ∨
          (alg = "chacha20poly1305" ∧ nl = 12 ∧ ctx.chacha = some a)) ∧
    (∀ (nl : Nat) (blob : Bytes),
        (splitBlob nl blob).1 ++ (splitBlob nl blob).2 = blob ∧
        (nl ≤ blob.length → (splitBlob nl blob).1.length = nl)) ∧
    (∀ (a : Aead) (nl : Nat) (key blob : Bytes),
        unwrapLayer a nl key blob = a.dec key (blob.take nl) (blob.drop nl) []) := by
  refine ⟨?_, ?_, fun a nl key blob => rfl⟩
  · intro ctx alg a nl h
    unfold aead_new at h
    split_ifs at h with hx hc
    · cases hcx : ctx.xchacha <;> rw [hcx] at h
      · simp at h
      · simp only [Except.ok.injEq, Prod.mk.injEq] at h
        exact Or.inl ⟨hx, h.2.symm, by rw [h.1]⟩
    · cases hcc : ctx.chacha <;> rw [hcc] at h
      · simp at h
      · simp only [Except.ok.injEq, Prod.mk.injEq] at h
        exact Or.inr ⟨hc, h.2.symm, by rw [h.1]⟩
  · intro nl blob
    refine ⟨List.take_append_drop nl blob, fun hle => ?_⟩
    simp [splitBlob, List.length_take]
    omega

theorem nonce_length_driven_split_witness :
    (("chacha20poly1305" = "xchacha20poly1305" ∧ (12 : Nat) = 24 ∧
        toyCtx.xchacha = some toyAead) ∨
      ("chacha20poly1305" = "chacha20poly1305" ∧ (12 : Nat) = 12 ∧
        toyCtx.chacha = some toyAead)) ∧
    (splitBlob 12 dekBlobC).1.length = 12 :=
  ⟨nonce_length_driven_split.1 toyCtx "chacha20poly1305" toyAead 12 rfl,
   (nonce_length_driven_split.2.1 12 dekBlobC).2 (by decide)⟩
